import Mathlib

/-!
Verification of the message-board orchestrator (`api/api.go`) and its
durable-store collaborator (`postgres/postgres.go`).

The HTTP handlers are embedded as pure functions: each takes the results the
collaborators would produce (the cache read, the durable-store read keyed by
offset and limit, the inserts) and returns the HTTP response together with a
trace of the collaborator calls the handler actually made.  Go `time.Time`
values are modelled as an absolute instant (Unix seconds) plus a zone offset
and zone name, and `Format(time.RFC1123)` is implemented from Go semantics:
it renders the wall-clock time of the value in its own zone.
-/

/-- Model of Go `time.Time`: absolute instant as Unix seconds, plus the
location's offset from UTC in seconds and the zone abbreviation. -/
structure GoTime where
  unix : Int
  offset : Int
  zone : String
deriving DecidableEq, Repr

/-- Go `t.UTC()`: same instant, zone set to UTC. -/
def GoTime.toUTC (t : GoTime) : GoTime :=
  { unix := t.unix, offset := 0, zone := "UTC" }

/-- The zero value of Go `time.Time`: January 1, year 1, 00:00:00 UTC. -/
def goZeroTime : GoTime :=
  { unix := -62135596800, offset := 0, zone := "UTC" }

/-- Zero-pad a natural number to two digits, as Go layout `02`/`15`/`04`/`05`. -/
def pad2 (n : Nat) : String :=
  if n < 10 then "0" ++ toString n else toString n

/-- Zero-pad a natural number to four digits, as Go layout `2006` for years. -/
def pad4 (n : Nat) : String :=
  if n < 10 then "000" ++ toString n
  else if n < 100 then "00" ++ toString n
  else if n < 1000 then "0" ++ toString n
  else toString n

/-- Convert days since the Unix epoch to a civil (year, month, day) date,
proleptic Gregorian calendar. -/
def civilFromDays (z0 : Int) : Int × Int × Int :=
  let z := z0 + 719468
  let era := z.ediv 146097
  let doe := z - era * 146097
  let yoe := (doe - doe.ediv 1460 + doe.ediv 36524 - doe.ediv 146096).ediv 365
  let y := yoe + era * 400
  let doy := doe - (365 * yoe + yoe.ediv 4 - yoe.ediv 100)
  let mp := (5 * doy + 2).ediv 153
  let d := doy - (153 * mp + 2).ediv 5 + 1
  let m := mp + (if mp < 10 then 3 else -9)
  (y + (if m ≤ 2 then 1 else 0), m, d)

/-- English three-letter weekday names, `0 = Sunday`, as Go layout `Mon`. -/
def weekdayName (n : Nat) : String :=
  (["Sun", "Mon", "Tue", "Wed", "Thu", "Fri", "Sat"]).getD n "Sun"

/-- English three-letter month names, `1 = January`, as Go layout `Jan`. -/
def monthName (n : Nat) : String :=
  (["Jan", "Feb", "Mar", "Apr", "May", "Jun",
    "Jul", "Aug", "Sep", "Oct", "Nov", "Dec"]).getD (n - 1) "Jan"

/-- Go `t.Format(time.RFC1123)` with layout `Mon, 02 Jan 2006 15:04:05 MST`:
the wall-clock fields of `t` in its own zone, ending with the zone name.
No normalization to UTC happens here, exactly as in Go. -/
def goFormatRFC1123 (t : GoTime) : String :=
  let wall := t.unix + t.offset
  let days := wall.ediv 86400
  let sod := (wall.emod 86400).toNat
  let c := civilFromDays days
  let wd := ((days + 4).emod 7).toNat
  weekdayName wd ++ ", " ++ pad2 c.2.2.toNat ++ " " ++ monthName c.2.1.toNat ++
    " " ++ pad4 c.1.toNat ++ " " ++ pad2 (sod / 3600) ++ ":" ++
    pad2 (sod / 60 % 60) ++ ":" ++ pad2 (sod % 60) ++ " " ++ t.zone

/-- The `api.Message` struct: id, text, user id, creation time. -/
structure Message where
  id : String
  text : String
  userID : String
  createdAt : GoTime
deriving DecidableEq, Repr

/-- The serialized message shape used by both the list and the create
responses: `created_at` is `CreatedAt.Format(time.RFC1123)`. -/
structure MessageOut where
  id : String
  text : String
  userID : String
  createdAt : String
deriving DecidableEq, Repr

/-- Serialization of one message into a response, from `api.go` lines 99-107
and 150-155. -/
def msgOut (m : Message) : MessageOut :=
  { id := m.id, text := m.text, userID := m.userID,
    createdAt := goFormatRFC1123 m.createdAt }

/-- The JSON body of a response: an error envelope, a message list, or a
single created message. -/
inductive RespBody where
  | err (msg : String)
  | messages (msgs : List MessageOut)
  | created (m : MessageOut)
deriving DecidableEq, Repr

/-- An HTTP response: status code and JSON body. -/
structure HttpResp where
  status : Nat
  body : RespBody
deriving DecidableEq, Repr

/-- The fixed page size of the list endpoint, `api.go` line 78. -/
def pageSize : Int := 10

/-- Outcome of the list handler: the response and the trace of
`DB.ListMessages(offset, limit)` calls that were made. -/
structure ListResult where
  resp : HttpResp
  dbCalls : List (Int × Int)
deriving DecidableEq, Repr

/-- The `listMessages` handler, `api.go` lines 67-112.  `cacheRes` is the
result of `Cache.ListMessages(ctx, pageSize)`; `dbRes offset limit` is the
result `DB.ListMessages(ctx, offset, limit)` would return. -/
def listMessages (cacheRes : Except String (List Message))
    (dbRes : Int → Int → Except String (List Message)) : ListResult :=
  match cacheRes with
  | .error _ => ⟨⟨500, .err "Could not list messages"⟩, []⟩
  | .ok msgs =>
    if pageSize - (msgs.length : Int) > 0 then
      match dbRes (msgs.length : Int) (pageSize - (msgs.length : Int)) with
      | .error _ =>
        ⟨⟨500, .err "Could not list messages"⟩,
          [((msgs.length : Int), pageSize - (msgs.length : Int))]⟩
      | .ok dbMsgs =>
        ⟨⟨200, .messages ((msgs ++ dbMsgs).map msgOut)⟩,
          [((msgs.length : Int), pageSize - (msgs.length : Int))]⟩
    else
      ⟨⟨200, .messages (msgs.map msgOut)⟩, []⟩

/-- The decoded body of `POST /messages`: only text and user id, no identity
or timestamp field exists in the request shape. -/
structure CreateReq where
  text : String
  userID : String
deriving DecidableEq, Repr

/-- The argument the handler passes to `DB.InsertMessage`, `api.go` lines
136-140: zero-valued id, the request's text and user id, and `time.Now()`
as the creation time. -/
def insertArg (req : CreateReq) (now : GoTime) : Message :=
  { id := "", text := req.text, userID := req.userID, createdAt := now }

/-- Outcome of the create handler: the response, the messages passed to
`DB.InsertMessage`, the messages passed to `Cache.InsertMessage`, and the
log records written on the error paths (message, underlying error). -/
structure CreateResult where
  resp : HttpResp
  dbCalls : List Message
  cacheCalls : List Message
  logs : List (String × String)
deriving DecidableEq, Repr

/-- The `createMessage` handler, `api.go` lines 114-157.  `body` is the JSON
decode result of the request body, `now` the value of `time.Now()`,
`dbInsert` and `cacheInsert` the collaborator insert behaviors. -/
def createMessage (body : Except String CreateReq) (now : GoTime)
    (dbInsert : Message → Except String Message)
    (cacheInsert : Message → Except String Unit) : CreateResult :=
  match body with
  | .error e =>
    ⟨⟨400, .err "Could not decode request body"⟩, [], [], [("Error", e)]⟩
  | .ok req =>
    match dbInsert (insertArg req now) with
    | .error e =>
      ⟨⟨500, .err "Could not insert message"⟩, [insertArg req now], [],
        [("Error", e)]⟩
    | .ok msg =>
      match cacheInsert msg with
      | .error e =>
        ⟨⟨201, .created (msgOut msg)⟩, [insertArg req now], [msg],
          [("Could not cache message", e)]⟩
      | .ok _ =>
        ⟨⟨201, .created (msgOut msg)⟩, [insertArg req now], [msg], []⟩

/-- The decoded body of `POST /messages/.../reactions`. -/
structure ReactionReq where
  rtype : String
  score : Int
  userID : String
deriving DecidableEq, Repr

/-- Outcome of the reaction handler: the response and the reaction storage
calls made (the handler makes none, `api.go` lines 159-187). -/
structure ReactionResult where
  resp : HttpResp
  storeCalls : List ReactionReq
deriving DecidableEq, Repr

/-- The `createReaction` handler, `api.go` lines 159-187: decode the body,
then always answer 501 with an error string naming the path's message id;
no storage collaborator is ever called. -/
def createReaction (messageID : String)
    (body : Except String ReactionReq) : ReactionResult :=
  match body with
  | .error _ => ⟨⟨400, .err "Could not decode request body"⟩, []⟩
  | .ok _ =>
    ⟨⟨501, .err ("could not create reaction for message with id " ++ messageID)⟩,
      []⟩

/-- Modelled from the spec: the bun row model `message` and its
`APIMessage` method are not among the provided sources.  Per the spec, the
durable store assigns identity and creation timestamp on insert; per
`postgres.go` lines 52-61, the inserted row takes only the text and the user
id from the argument message. -/
def pgInsertMessage (assignedID : String) (assignedAt : GoTime)
    (msg : Message) : Message :=
  { id := assignedID, text := msg.text, userID := msg.userID,
    createdAt := assignedAt }

/-- The Unix epoch instant in UTC, used as a concrete test time. -/
def tEpoch : GoTime := ⟨0, 0, "UTC"⟩

/-- Midnight of 2024-01-01 in UTC, the repository test fixture time. -/
def t2024 : GoTime := ⟨1704067200, 0, "UTC"⟩

/-- A concrete message, matching the repository test fixture. -/
def m0 : Message := ⟨"1", "Hello", "alice", t2024⟩

/-- A second concrete message. -/
def m1 : Message := ⟨"2", "World", "bob", t2024⟩

/-- A concrete message whose creation time is in a non-UTC zone (EST). -/
def mEST : Message := ⟨"1", "Hello", "alice", ⟨0, -18000, "EST"⟩⟩

/-- A durable store whose list read always succeeds with no messages. -/
def dbZero : Int → Int → Except String (List Message) :=
  fun _ _ => Except.ok []

/-- A durable store whose list read always succeeds with one message. -/
def dbOne : Int → Int → Except String (List Message) :=
  fun _ _ => Except.ok [m1]

/-- A durable store whose list read always fails. -/
def dbErr : Int → Int → Except String (List Message) :=
  fun _ _ => Except.error "db down"

/-- A durable store insert that assigns id `"1"` and time `t2024`. -/
def dbInsOK : Message → Except String Message :=
  fun m => Except.ok (pgInsertMessage "1" t2024 m)

/-- A durable store insert that always fails. -/
def dbInsErr : Message → Except String Message :=
  fun _ => Except.error "db down"

/-- A cache insert that always succeeds. -/
def cacheInsOK : Message → Except String Unit :=
  fun _ => Except.ok ()

/-- A cache insert that always fails. -/
def cacheInsErr : Message → Except String Unit :=
  fun _ => Except.error "cache down"

/-- A concrete decoded create request. -/
def req0 : CreateReq := ⟨"hello", "test"⟩

/-- C1: on a list request, if the cache returns `c` messages with
`c < pageSize` (pageSize is 10), the durable store is queried exactly once
with `offset = c` and `limit = pageSize - c`; if `c ≥ pageSize` the durable
store is not queried at all. -/
theorem C1_db_query_arithmetic (c : List Message)
    (dbRes : Int → Int → Except String (List Message)) :
    (c.length < 10 →
      (listMessages (Except.ok c) dbRes).dbCalls =
        [((c.length : Int), 10 - (c.length : Int))]) ∧
    (10 ≤ c.length → (listMessages (Except.ok c) dbRes).dbCalls = []) := by
  constructor
  · intro h
    simp only [listMessages, pageSize]
    rw [if_pos (show (10 : Int) - (c.length : Int) > 0 by omega)]
    cases dbRes (c.length : Int) ((10 : Int) - (c.length : Int)) <;> rfl
  · intro h
    simp only [listMessages, pageSize]
    rw [if_neg (show ¬ (10 : Int) - (c.length : Int) > 0 by omega)]

/-- Witness for C1: one cached message leads to a single durable-store query
with offset 1 and limit 9; ten cached messages lead to none. -/
theorem C1_db_query_arithmetic_witness :
    (listMessages (Except.ok [m0]) dbZero).dbCalls = [((1 : Int), 9)] ∧
    (listMessages (Except.ok (List.replicate 10 m0)) dbZero).dbCalls = [] := by
  constructor
  · have h := (C1_db_query_arithmetic [m0] dbZero).1 (by decide)
    norm_num at h
    exact h
  · exact (C1_db_query_arithmetic (List.replicate 10 m0) dbZero).2 (by simp)

/-- C2: a successful list response is exactly the cache messages followed by
the durable-store messages, each in its own order, and when both
collaborators respect their limit contracts the total length is at most the
page size; the durable tail is empty exactly when the cache already filled
the page. -/
theorem C2_order_and_bound (c d : List Message)
    (dbRes : Int → Int → Except String (List Message))
    (hc : c.length ≤ 10)
    (hd : dbRes (c.length : Int) (10 - (c.length : Int)) = Except.ok d)
    (hdlen : (d.length : Int) ≤ 10 - (c.length : Int)) :
    ∃ tail, (listMessages (Except.ok c) dbRes).resp =
        ⟨200, RespBody.messages ((c ++ tail).map msgOut)⟩ ∧
      (c ++ tail).length ≤ 10 ∧
      (tail = d ∨ (tail = [] ∧ c.length = 10)) := by
  by_cases h : c.length < 10
  · refine ⟨d, ?_, ?_, Or.inl rfl⟩
    · simp only [listMessages, pageSize]
      rw [if_pos (show (10 : Int) - (c.length : Int) > 0 by omega), hd]
    · have := List.length_append c d
      omega
  · have hlen : c.length = 10 := by omega
    refine ⟨[], ?_, by simp [hlen], Or.inr ⟨rfl, hlen⟩⟩
    simp only [listMessages, pageSize]
    rw [if_neg (show ¬ (10 : Int) - (c.length : Int) > 0 by omega)]
    simp

/-- Witness for C2: one cached message and one durable-store message yield
the two messages in cache-then-durable order, two in total. -/
theorem C2_order_and_bound_witness :
    ∃ tail, (listMessages (Except.ok [m0]) dbOne).resp =
        ⟨200, RespBody.messages (([m0] ++ tail).map msgOut)⟩ ∧
      ([m0] ++ tail).length ≤ 10 ∧
      (tail = [m1] ∨ (tail = [] ∧ ([m0] : List Message).length = 10)) :=
  C2_order_and_bound [m0] [m1] dbOne (by simp) rfl (by simp)

/-- C3: when the cache read fails, the list operation answers 500 with body
`error: Could not list messages`, the durable store is never queried, and no
messages are returned, whatever the durable store would have answered. -/
theorem C3_cache_error_fails_whole_list (e : String)
    (dbRes : Int → Int → Except String (List Message)) :
    listMessages (Except.error e) dbRes =
      ⟨⟨500, RespBody.err "Could not list messages"⟩, []⟩ :=
  rfl

/-- C4: when the cache read succeeds with fewer than pageSize messages and
the durable-store read fails, the list operation answers 500 with the same
error body; the already-obtained cache messages are not returned. -/
theorem C4_db_error_fails_whole_list (c : List Message) (e : String)
    (dbRes : Int → Int → Except String (List Message))
    (hlen : c.length < 10)
    (hdb : dbRes (c.length : Int) (10 - (c.length : Int)) = Except.error e) :
    listMessages (Except.ok c) dbRes =
      ⟨⟨500, RespBody.err "Could not list messages"⟩,
        [((c.length : Int), 10 - (c.length : Int))]⟩ := by
  simp only [listMessages, pageSize]
  rw [if_pos (show (10 : Int) - (c.length : Int) > 0 by omega), hdb]

/-- Witness for C4: one cached message and a failing durable store yield the
500 error response with no messages. -/
theorem C4_db_error_fails_whole_list_witness :
    listMessages (Except.ok [m0]) dbErr =
      ⟨⟨500, RespBody.err "Could not list messages"⟩,
        [(((List.length [m0] : Nat) : Int),
          10 - ((List.length [m0] : Nat) : Int))]⟩ :=
  C4_db_error_fails_whole_list [m0] "db down" dbErr (by decide) rfl

/-- C10: if the cache returns more than pageSize messages, the list handler
does not truncate: the durable store is skipped and every cache message is
serialized into the 200 response, whose length then exceeds the page size. -/
theorem C10_cache_overflow_not_truncated (c : List Message)
    (dbRes : Int → Int → Except String (List Message))
    (h : 10 < c.length) :
    listMessages (Except.ok c) dbRes =
      ⟨⟨200, RespBody.messages (c.map msgOut)⟩, []⟩ ∧
    10 < (c.map msgOut).length := by
  refine ⟨?_, by simpa using h⟩
  simp only [listMessages, pageSize]
  rw [if_neg (show ¬ (10 : Int) - (c.length : Int) > 0 by omega)]

/-- Witness for C10: eleven cached messages are all returned and the durable
store is not queried. -/
theorem C10_cache_overflow_not_truncated_witness :
    listMessages (Except.ok (List.replicate 11 m0)) dbZero =
      ⟨⟨200, RespBody.messages ((List.replicate 11 m0).map msgOut)⟩, []⟩ ∧
    10 < ((List.replicate 11 m0).map msgOut).length :=
  C10_cache_overflow_not_truncated (List.replicate 11 m0) dbZero (by simp)

/-- C5: on create, a durable-store insert failure yields 500 with no cache
write attempted; a durable-store success followed by a cache-write failure
still yields the 201 response, identical to the all-success case, with the
cache failure recorded only in the log. -/
theorem C5_create_failure_policy (req : CreateReq) (now : GoTime)
    (dbInsert : Message → Except String Message)
    (cacheInsert : Message → Except String Unit) :
    (∀ e, dbInsert (insertArg req now) = Except.error e →
      createMessage (Except.ok req) now dbInsert cacheInsert =
        ⟨⟨500, RespBody.err "Could not insert message"⟩,
          [insertArg req now], [], [("Error", e)]⟩) ∧
    (∀ m e, dbInsert (insertArg req now) = Except.ok m →
      cacheInsert m = Except.error e →
      (createMessage (Except.ok req) now dbInsert cacheInsert).resp =
          ⟨201, RespBody.created (msgOut m)⟩ ∧
        (createMessage (Except.ok req) now dbInsert cacheInsert).logs =
          [("Could not cache message", e)] ∧
        (createMessage (Except.ok req) now dbInsert cacheInsert).resp =
          (createMessage (Except.ok req) now dbInsert
            (fun _ => Except.ok ())).resp) := by
  constructor
  · intro e he
    simp only [createMessage, he]
  · intro m e hm hcache
    simp only [createMessage, hm, hcache]
    exact ⟨trivial, trivial, trivial⟩

/-- Witness for C5: a failing durable insert gives the 500 outcome with no
cache call; a failing cache insert after a successful durable insert gives
the same 201 response as the all-success run, plus the log record. -/
theorem C5_create_failure_policy_witness :
    (createMessage (Except.ok req0) tEpoch dbInsErr cacheInsErr =
      ⟨⟨500, RespBody.err "Could not insert message"⟩,
        [insertArg req0 tEpoch], [], [("Error", "db down")]⟩) ∧
    ((createMessage (Except.ok req0) tEpoch dbInsOK cacheInsErr).resp =
        ⟨201, RespBody.created
          (msgOut (pgInsertMessage "1" t2024 (insertArg req0 tEpoch)))⟩ ∧
      (createMessage (Except.ok req0) tEpoch dbInsOK cacheInsErr).logs =
        [("Could not cache message", "cache down")] ∧
      (createMessage (Except.ok req0) tEpoch dbInsOK cacheInsErr).resp =
        (createMessage (Except.ok req0) tEpoch dbInsOK
          (fun _ => Except.ok ())).resp) :=
  ⟨(C5_create_failure_policy req0 tEpoch dbInsErr cacheInsErr).1 "db down" rfl,
    (C5_create_failure_policy req0 tEpoch dbInsOK cacheInsErr).2
      (pgInsertMessage "1" t2024 (insertArg req0 tEpoch)) "cache down" rfl rfl⟩

/-- C6: a successful create responds 201 with the durable store's returned
message verbatim: its id, text, user id, and its creation time serialized;
this holds whether or not the cache write succeeds. -/
theorem C6_response_is_db_message (req : CreateReq) (now : GoTime)
    (dbInsert : Message → Except String Message)
    (cacheInsert : Message → Except String Unit) (m : Message)
    (h : dbInsert (insertArg req now) = Except.ok m) :
    (createMessage (Except.ok req) now dbInsert cacheInsert).resp =
      ⟨201, RespBody.created
        ⟨m.id, m.text, m.userID, goFormatRFC1123 m.createdAt⟩⟩ := by
  cases hc : cacheInsert m <;> simp only [createMessage, h, hc] <;> rfl

/-- Witness for C6: with a durable store assigning id 1 and the fixture
time, the 201 body carries exactly those assigned values. -/
theorem C6_response_is_db_message_witness :
    (createMessage (Except.ok req0) tEpoch dbInsOK cacheInsOK).resp =
      ⟨201, RespBody.created
        ⟨(pgInsertMessage "1" t2024 (insertArg req0 tEpoch)).id,
          (pgInsertMessage "1" t2024 (insertArg req0 tEpoch)).text,
          (pgInsertMessage "1" t2024 (insertArg req0 tEpoch)).userID,
          goFormatRFC1123
            (pgInsertMessage "1" t2024 (insertArg req0 tEpoch)).createdAt⟩⟩ :=
  C6_response_is_db_message req0 tEpoch dbInsOK cacheInsOK
    (pgInsertMessage "1" t2024 (insertArg req0 tEpoch)) rfl

/-- C9: the reaction handler answers 400 on a malformed body, and on any
well-formed body answers 501 with an error string naming the path's message
id; it makes no storage call, for every message id. -/
theorem C9_reaction_not_implemented (messageID : String) :
    (∀ e, createReaction messageID (Except.error e) =
      ⟨⟨400, RespBody.err "Could not decode request body"⟩, []⟩) ∧
    (∀ r, createReaction messageID (Except.ok r) =
      ⟨⟨501, RespBody.err
        ("could not create reaction for message with id " ++ messageID)⟩,
        []⟩) :=
  ⟨fun _ => rfl, fun _ => rfl⟩

/-- Counterexample to C7: in a concrete successful create run, the message
the orchestrator passes to the durable-store insert carries the
orchestrator-assigned creation time `time.Now()` (here the epoch), not the
zero time an unset timestamp would be — so the orchestrator does set a
creation timestamp. -/
theorem C7_counterexample :
    (createMessage (Except.ok req0) tEpoch dbInsOK cacheInsOK).dbCalls.map
        Message.createdAt = [tEpoch] ∧ tEpoch ≠ goZeroTime :=
  ⟨rfl, by decide⟩

/-- C7 amended: the orchestrator never assigns an identity (every message it
passes to the durable-store insert has an empty id), but it does set the
message's creation time to `time.Now()`; the durable store ignores both the
supplied id and the supplied time, taking only the text and the user id and
assigning its own identity and timestamp. -/
theorem C7_only_db_assigns_identity (body : Except String CreateReq)
    (now : GoTime) (dbInsert : Message → Except String Message)
    (cacheInsert : Message → Except String Unit) :
    (∀ m, m ∈ (createMessage body now dbInsert cacheInsert).dbCalls →
      m.id = "" ∧ m.createdAt = now) ∧
    (∀ aid aAt m, pgInsertMessage aid aAt m =
      { id := aid, text := m.text, userID := m.userID,
        createdAt := aAt }) := by
  refine ⟨?_, fun _ _ _ => rfl⟩
  intro m hm
  cases body with
  | error e => simp [createMessage] at hm
  | ok req =>
    have : m = insertArg req now := by
      cases hdb : dbInsert (insertArg req now) with
      | error e => simp [createMessage, hdb] at hm; exact hm
      | ok msg =>
        cases hc : cacheInsert msg with
        | error e => simp [createMessage, hdb, hc] at hm; exact hm
        | ok u => simp [createMessage, hdb, hc] at hm; exact hm
    subst this
    exact ⟨rfl, rfl⟩

/-- Witness for C7 amended: in a concrete run the message handed to the
durable store has an empty id and the `time.Now()` creation time. -/
theorem C7_only_db_assigns_identity_witness :
    (insertArg req0 tEpoch).id = "" ∧
    (insertArg req0 tEpoch).createdAt = tEpoch :=
  (C7_only_db_assigns_identity (Except.ok req0) tEpoch dbInsOK
    cacheInsOK).1 (insertArg req0 tEpoch) (by simp [createMessage, dbInsOK,
      cacheInsOK, pgInsertMessage])

/-- Counterexample to C8: a message whose creation time is in EST (offset
-18000) is serialized by the list handler as 19:00 on Dec 31 with zone EST,
which differs from the UTC normalization of the same instant — the handler
does not normalize timestamps to UTC. -/
theorem C8_counterexample :
    (listMessages (Except.ok [mEST]) dbZero).resp =
      ⟨200, RespBody.messages
        [⟨"1", "Hello", "alice", "Wed, 31 Dec 1969 19:00:00 EST"⟩]⟩ ∧
    goFormatRFC1123 mEST.createdAt ≠
      goFormatRFC1123 (GoTime.toUTC mEST.createdAt) := by
  exact ⟨by decide, by decide⟩

/-- C8 amended: every timestamp in a list or create response is serialized
with `Format(time.RFC1123)` in the timestamp's own zone, with no
normalization; the rendering agrees with the UTC-normalized one exactly
when the timestamp is already in UTC. -/
theorem C8_rfc1123_own_zone (m : Message) (t : GoTime)
    (h : t.offset = 0 ∧ t.zone = "UTC") :
    (msgOut m).createdAt = goFormatRFC1123 m.createdAt ∧
    goFormatRFC1123 t = goFormatRFC1123 (GoTime.toUTC t) := by
  obtain ⟨h1, h2⟩ := h
  refine ⟨rfl, ?_⟩
  cases t with
  | mk u o z =>
    simp only at h1 h2
    subst h1
    subst h2
    rfl

/-- Witness for C8 amended: the fixture UTC time renders identically to its
UTC normalization. -/
theorem C8_rfc1123_own_zone_witness :
    (msgOut m0).createdAt = goFormatRFC1123 m0.createdAt ∧
    goFormatRFC1123 tEpoch = goFormatRFC1123 (GoTime.toUTC tEpoch) :=
  C8_rfc1123_own_zone m0 tEpoch ⟨rfl, rfl⟩
